import Mathlib

/-!
Verification of the error-data decoding and classification core of
`scripts/replayTransaction.ts`.

The script's core interprets an EVM revert payload, given as a
"0x"-prefixed hexadecimal string, into a human-readable report:

* `panicErrorCodeToReason` (source lines 24-47) maps a Solidity panic
  code to a fixed reason string;
* `decodeCustomErrorData` (lines 62-86) tries to decode the payload
  against every candidate contract interface, collecting all successes;
* `decodeRevertMessage` (lines 88-92) and `decodePanicCode` (lines
  94-100) decode the two standard revert encodings;
* `decodeErrorData` (lines 102-129) classifies the payload by its hex
  prefix and composes the final indented report.

The external ABI codec (`ethers.utils.defaultAbiCoder`) and the
per-contract error parser (`interface.parseError`) are library
collaborators outside this repository; they are embedded as explicit
fallible operations (`Option`-returning functions), following the spec's
description of them as a trusted library boundary exposing a
decode-error-by-selector operation.  A decode that would throw in the
source returns `none` here; a `try { } catch { }` in the source becomes
a `match` on the `Option`.
-/

namespace ReplayTx

/-- JavaScript `String.prototype.startsWith`: `pre` is a prefix of the
character sequence of `s` (case-sensitive, exact code-unit comparison;
the strings handled here are ASCII hex strings). -/
def jsStartsWith (s pre : String) : Bool :=
  pre.data.isPrefixOf s.data

/-- JavaScript `String.prototype.substring(i)`: drop the first `i`
code units of `s` (the strings handled here are ASCII). -/
def jsSubstring (s : String) (i : Nat) : String :=
  String.mk (s.data.drop i)

/-- Source line 17: `const textLevelIndent = "  ";`. -/
def textLevelIndent : String := "  "

/-- Source lines 24-47: `panicErrorCodeToReason`.  The source's
`switch` over strict numeric equality is embedded as a chain of
equality tests with the same cases and the same `default`. -/
def panicErrorCodeToReason (errorCode : Nat) : String :=
  if errorCode = 0x1 then "Assertion error"
  else if errorCode = 0x11 then
    "Arithmetic operation underflowed or overflowed outside of an unchecked block"
  else if errorCode = 0x12 then "Division or modulo division by zero"
  else if errorCode = 0x21 then
    "Tried to convert a value into an enum, but the value was too big or negative"
  else if errorCode = 0x22 then "Incorrectly encoded storage byte array"
  else if errorCode = 0x31 then ".pop() was called on an empty array"
  else if errorCode = 0x32 then "Array accessed at an out-of-bounds or negative index"
  else if errorCode = 0x41 then
    "Too much memory was allocated, or an array was created that is too large"
  else if errorCode = 0x51 then "Called a zero-initialized variable of internal function type"
  else "???"

/-- Modelled from the spec: the external ABI codec
(`ethers.utils.defaultAbiCoder` plus the `BigNumber.toNumber`
conversion), a trusted library boundary outside this repository.
`decodeString` decodes a payload as a single `["string"]` parameter;
`decodeUint` decodes it as a single `["uint"]` parameter and converts
the result to a number.  Either returns `none` exactly when the
corresponding library call would throw. -/
structure AbiCoder where
  decodeString : String → Option String
  decodeUint : String → Option Nat

/-- The part of ethers' `ErrorDescription` the source reads: the error
fragment's name (`errorDescription.errorFragment.name`) and the decoded
arguments, already in their display-string form (`arg.toString()`). -/
structure ErrorDescription where
  name : String
  args : List String
deriving DecidableEq

/-- Modelled from the spec: one declared custom error of a candidate
interface — a name, a 4-byte selector written as 8 lowercase hex
characters, and a fallible decode of the payload after the selector
into display strings (spec section 6: each candidate exposes a
decode-error-by-selector operation). -/
structure ErrorFragment where
  name : String
  selector : String
  decodeArgs : String → Option (List String)

/-- Source lines 19-22: `ContractEntity`, reduced to what
`decodeCustomErrorData` reads from it: the artifact's contract name and
the factory interface's declared custom errors. -/
structure ContractEntity where
  contractName : String
  errorFragments : List ErrorFragment

/-- Modelled from the spec: a single fragment's decode attempt — the
data must start with the fragment's 4-byte selector, then the remaining
payload must decode under the fragment's parameter types. -/
def matchFragment (errorData : String) (frag : ErrorFragment) : Option ErrorDescription :=
  if jsStartsWith errorData ("0x" ++ frag.selector) then
    (frag.decodeArgs (jsSubstring errorData 10)).map (fun args => ⟨frag.name, args⟩)
  else
    none

/-- Modelled from the spec: ethers' `interface.parseError` — look the
selector up among the interface's declared custom errors and decode the
payload; `none` when the library call would throw (selector unknown to
this interface, or payload shape mismatch). -/
def parseError (entity : ContractEntity) (errorData : String) : Option ErrorDescription :=
  entity.errorFragments.findSome? (matchFragment errorData)

/-- Source lines 69-76: render one decoded argument.  An argument whose
string form starts with "0x" is wrapped in double quotes; any other
argument is rendered as is. -/
def renderArg (argString : String) : String :=
  if jsStartsWith argString "0x" then "\"" ++ argString ++ "\"" else argString

/-- Source lines 69-78: the display line pushed for one successful
decode: `name(args joined by ", ") -- from contract "contractName"`. -/
def renderedMatch (entity : ContractEntity) (d : ErrorDescription) : String :=
  d.name ++ "(" ++ String.intercalate ", " (d.args.map renderArg) ++
    ") -- from contract \"" ++ entity.contractName ++ "\""

/-- Source lines 62-86: `decodeCustomErrorData`.  The `forEach` with a
`try`/`catch` and a push onto a local array is embedded as a left fold
over the candidate list with an explicit accumulator: a successful
`parseError` appends one rendered line, a failure is skipped. -/
def decodeCustomErrorData (entities : List ContractEntity) (errorData : String) : List String :=
  entities.foldl
    (fun acc entity =>
      match parseError entity errorData with
      | some d => acc ++ [renderedMatch entity d]
      | none => acc)
    []

/-- ethers `BigNumber.toHexString`: "0x" followed by the minimal
lowercase hex digits of the value, zero-padded on the left to an even
number of digits. -/
def bigNumberToHexString (n : Nat) : String :=
  let ds := Nat.toDigits 16 n
  let padded := if ds.length % 2 = 1 then '0' :: ds else ds
  "0x" ++ String.mk padded

/-- Source lines 88-92: `decodeRevertMessage`.  Strips the 4-byte
selector (10 hex characters), decodes the rest as a single string and
formats the message line; `none` when the ABI decode throws. -/
def decodeRevertMessage (coder : AbiCoder) (errorData : String) : Option String :=
  let content := "0x" ++ jsSubstring errorData 10
  (coder.decodeString content).map
    (fun reason => "Reverted with the message: \"" ++ reason ++ "\".")

/-- Source lines 94-100: `decodePanicCode`.  Strips the selector,
decodes the rest as a single uint, and formats the panic line from the
code's hex rendering and `panicErrorCodeToReason`; `none` when the ABI
decode (or the number conversion) throws. -/
def decodePanicCode (coder : AbiCoder) (errorData : String) : Option String :=
  let content := "0x" ++ jsSubstring errorData 10
  (coder.decodeUint content).map
    (fun code =>
      "Panicked with the code: \"" ++ bigNumberToHexString code ++ "\"(" ++
        panicErrorCodeToReason code ++ ").")

/-- Source lines 102-129: `decodeErrorData`.  Classifies the data by
its hex prefix, formats the primary block, and appends the
custom-error block after a recognized standard kind when the matcher
found anything.  Returns `none` exactly when an uncaught decode error
would propagate out of the source function. -/
def decodeErrorData (coder : AbiCoder) (entities : List ContractEntity)
    (errorData : String) (textIndent : String) : Option String :=
  let nextLevelTextIndent := textIndent ++ textLevelIndent
  let decodedCustomErrorStrings := decodeCustomErrorData entities errorData
  let customSuffix := " Also it can be the following custom error(s):\n" ++
    nextLevelTextIndent ++
    String.intercalate ("\n" ++ nextLevelTextIndent) decodedCustomErrorStrings
  if jsStartsWith errorData "0x08c379a0" then
    (decodeRevertMessage coder errorData).map
      (fun msg =>
        if decodedCustomErrorStrings.length > 0 then
          textIndent ++ msg ++ customSuffix
        else
          textIndent ++ msg)
  else if jsStartsWith errorData "0x4e487b71" then
    (decodePanicCode coder errorData).map
      (fun msg =>
        if decodedCustomErrorStrings.length > 0 then
          textIndent ++ msg ++ customSuffix
        else
          textIndent ++ msg)
  else
    if decodedCustomErrorStrings.length > 0 then
      some (textIndent ++ "Reverted with a custom error (or several suitable ones):\n" ++
        nextLevelTextIndent ++
        String.intercalate ("\n" ++ nextLevelTextIndent) decodedCustomErrorStrings)
    else
      some (textIndent ++
        "Reverted with a custom error that can't be decoded using the provided contracts.\n" ++
        textIndent ++ "Try to add more contract(s) to the \"contracts\" directory to get decoded error.")

/-- The spec's `ClassificationResult` (spec section 3): the tagged
variant the classifier produces. -/
inductive ClassificationResult where
  | StandardMessage (msg : String)
  | StandardPanic (code : Nat) (reason : String)
  | Unclassified
deriving DecidableEq

/-- The spec's `classify` contract (spec section 4.1), distilled from
the branch structure of `decodeErrorData` (source lines 108-121)
together with the decodes of `decodeRevertMessage` and
`decodePanicCode`: the same case-sensitive hex-prefix tests and the
same payload decodes, stripped of the report formatting.  Returns
`none` exactly when the decode under a matching prefix throws in the
source. -/
def classify (coder : AbiCoder) (errorData : String) : Option ClassificationResult :=
  if jsStartsWith errorData "0x08c379a0" then
    (coder.decodeString ("0x" ++ jsSubstring errorData 10)).map
      ClassificationResult.StandardMessage
  else if jsStartsWith errorData "0x4e487b71" then
    (coder.decodeUint ("0x" ++ jsSubstring errorData 10)).map
      (fun code => ClassificationResult.StandardPanic code (panicErrorCodeToReason code))
  else
    some ClassificationResult.Unclassified

/-- Value of one hexadecimal digit character, upper or lower case. -/
def hexDigitVal (c : Char) : Option Nat :=
  let n := c.toNat
  if 48 ≤ n ∧ n ≤ 57 then some (n - 48)
  else if 97 ≤ n ∧ n ≤ 102 then some (n - 87)
  else if 65 ≤ n ∧ n ≤ 70 then some (n - 55)
  else none

/-- Parse a sequence of hex digit pairs into bytes (case-insensitive,
fails on an odd length or a non-hex character). -/
def hexPairsToBytes : List Char → Option (List Nat)
  | [] => some []
  | [_] => none
  | c1 :: c2 :: rest =>
    match hexDigitVal c1, hexDigitVal c2, hexPairsToBytes rest with
    | some h, some l, some bs => some ((16 * h + l) :: bs)
    | _, _, _ => none

/-- The byte sequence denoted by a "0x"-prefixed hex string: the
byte-level reading of `ErrorData` used by the spec (spec section 3). -/
def errorDataBytes (s : String) : Option (List Nat) :=
  if jsStartsWith s "0x" then hexPairsToBytes (s.data.drop 2) else none

/-- An ABI coder whose decodes always succeed: every payload decodes to
the string "ok" and to the uint 17 (0x11). -/
def abiCoderTotal : AbiCoder :=
  ⟨fun _ => some "ok", fun _ => some 17⟩

/-- An error fragment whose selector collides with the standard
Error(string) selector and which takes no arguments. -/
def fragA : ErrorFragment :=
  ⟨"CollideErr", "08c379a0", fun _ => some []⟩

/-- A candidate contract named "Alpha" declaring only `fragA`. -/
def entityA : ContractEntity := ⟨"Alpha", [fragA]⟩

/-- A candidate contract named "Beta" declaring only `fragA`. -/
def entityB : ContractEntity := ⟨"Beta", [fragA]⟩

/-! Helper lemmas. -/

/-- The prefix test is the list-level prefix relation on the character
sequences. -/
theorem jsStartsWith_iff (s pre : String) :
    jsStartsWith s pre = true ↔ pre.data <+: s.data :=
  List.isPrefixOf_iff_prefix

/-- A string shorter than `pre` cannot start with `pre`. -/
theorem jsStartsWith_eq_false_of_lt (s pre : String) (h : s.length < pre.length) :
    jsStartsWith s pre = false := by
  cases hp : jsStartsWith s pre with
  | false => rfl
  | true =>
    exfalso
    have hle := ((jsStartsWith_iff s pre).mp hp).length_le
    have h' : s.data.length < pre.data.length := h
    omega

/-- The push-onto-an-accumulator fold of `decodeCustomErrorData`,
generalized over the starting accumulator. -/
theorem decodeCustomErrorData_foldl (errorData : String) (l : List ContractEntity)
    (acc : List String) :
    l.foldl
        (fun acc entity =>
          match parseError entity errorData with
          | some d => acc ++ [renderedMatch entity d]
          | none => acc)
        acc =
      acc ++ l.filterMap (fun e => (parseError e errorData).map (renderedMatch e)) := by
  induction l generalizing acc with
  | nil => simp
  | cons e l ih =>
    cases h : parseError e errorData with
    | none => simp [List.foldl_cons, h, ih, List.filterMap_cons]
    | some d => simp [List.foldl_cons, h, ih, List.filterMap_cons]

/-- The matcher is exactly the list of successful per-candidate
decodes, rendered, in candidate order. -/
theorem decodeCustomErrorData_spec (entities : List ContractEntity) (errorData : String) :
    decodeCustomErrorData entities errorData =
      entities.filterMap (fun e => (parseError e errorData).map (renderedMatch e)) := by
  unfold decodeCustomErrorData
  simpa using decodeCustomErrorData_foldl errorData entities []

/-- Inversion of `classify` at `StandardMessage`. -/
theorem classify_message_iff (coder : AbiCoder) (s m : String) :
    classify coder s = some (ClassificationResult.StandardMessage m) ↔
      jsStartsWith s "0x08c379a0" = true ∧
        coder.decodeString ("0x" ++ jsSubstring s 10) = some m := by
  unfold classify
  cases h1 : jsStartsWith s "0x08c379a0" <;>
    cases h2 : jsStartsWith s "0x4e487b71" <;>
      simp [Option.map_eq_some']

/-- Inversion of `classify` at `StandardPanic`. -/
theorem classify_panic_iff (coder : AbiCoder) (s : String) (c : Nat) (r : String) :
    classify coder s = some (ClassificationResult.StandardPanic c r) ↔
      jsStartsWith s "0x08c379a0" = false ∧ jsStartsWith s "0x4e487b71" = true ∧
        coder.decodeUint ("0x" ++ jsSubstring s 10) = some c ∧
        panicErrorCodeToReason c = r := by
  unfold classify
  cases h1 : jsStartsWith s "0x08c379a0" <;>
    cases h2 : jsStartsWith s "0x4e487b71" <;>
      simp [Option.map_eq_some']
  aesop

/-- Inversion of `classify` at `Unclassified`. -/
theorem classify_unclassified_iff (coder : AbiCoder) (s : String) :
    classify coder s = some ClassificationResult.Unclassified ↔
      jsStartsWith s "0x08c379a0" = false ∧ jsStartsWith s "0x4e487b71" = false := by
  unfold classify
  cases h1 : jsStartsWith s "0x08c379a0" <;>
    cases h2 : jsStartsWith s "0x4e487b71" <;>
      simp [Option.map_eq_some']

/-! Claim theorems. -/

/-- C1 counterexample: the claim quantifies over the bytes of the
error data, but the classifier compares the hexadecimal string form
case-sensitively.  The string "0x08C379A0" denotes exactly the 4 bytes
of the Error(string) selector 0x08c379a0 and its payload decodes (the
coder decodes every payload to "ok"), yet `classify` returns
`Unclassified` instead of `StandardMessage "ok"`. -/
theorem c1_counterexample :
    errorDataBytes "0x08C379A0" = some [8, 195, 121, 160] ∧
    abiCoderTotal.decodeString ("0x" ++ jsSubstring "0x08C379A0" 10) = some "ok" ∧
    classify abiCoderTotal "0x08C379A0" = some ClassificationResult.Unclassified ∧
    classify abiCoderTotal "0x08C379A0" ≠
      some (ClassificationResult.StandardMessage "ok") := by
  decide

/-- C1 (amended): classification is by a case-sensitive prefix test on
the hex string form.  If `errorData` starts with the literal lowercase
string "0x08c379a0" and the string decode of the remainder succeeds,
`classify` returns `StandardMessage` of the decoded string; else if it
starts with "0x4e487b71" and the uint decode succeeds, it returns
`StandardPanic` of the code and `panicErrorCodeToReason` of the code;
if neither lowercase prefix matches, it returns `Unclassified`. -/
theorem c1_classify_behaviour (coder : AbiCoder) (s : String) :
    (∀ m, jsStartsWith s "0x08c379a0" = true →
      coder.decodeString ("0x" ++ jsSubstring s 10) = some m →
      classify coder s = some (ClassificationResult.StandardMessage m)) ∧
    (∀ c, jsStartsWith s "0x08c379a0" = false →
      jsStartsWith s "0x4e487b71" = true →
      coder.decodeUint ("0x" ++ jsSubstring s 10) = some c →
      classify coder s =
        some (ClassificationResult.StandardPanic c (panicErrorCodeToReason c))) ∧
    (jsStartsWith s "0x08c379a0" = false → jsStartsWith s "0x4e487b71" = false →
      classify coder s = some ClassificationResult.Unclassified) := by
  refine ⟨?_, ?_, ?_⟩
  · intro m h1 h2
    simp [classify, h1, h2]
  · intro c h1 h2 h3
    simp [classify, h1, h2, h3]
  · intro h1 h2
    simp [classify, h1, h2]

/-- C1 witness: the three branches of the amended classification at
concrete inputs. -/
theorem c1_classify_behaviour_witness :
    classify abiCoderTotal "0x08c379a0ff" =
      some (ClassificationResult.StandardMessage "ok") ∧
    classify abiCoderTotal "0x4e487b71ff" =
      some (ClassificationResult.StandardPanic 17 (panicErrorCodeToReason 17)) ∧
    classify abiCoderTotal "0xdeadbeef" = some ClassificationResult.Unclassified :=
  ⟨(c1_classify_behaviour abiCoderTotal "0x08c379a0ff").1 "ok" (by decide) (by decide),
   (c1_classify_behaviour abiCoderTotal "0x4e487b71ff").2.1 17
     (by decide) (by decide) (by decide),
   (c1_classify_behaviour abiCoderTotal "0xdeadbeef").2.2 (by decide) (by decide)⟩

/-- C2: the matcher returns exactly the successful per-candidate
decodes, rendered, in the order the candidates were supplied; a failed
decode is skipped as a non-match and never surfaced; and when two
distinct candidates both decode the same payload, exactly two entries
are returned, one per contract, in supply order, duplicates
retained. -/
theorem c2_matcher_exact_matches (entities : List ContractEntity) (errorData : String) :
    decodeCustomErrorData entities errorData =
      entities.filterMap (fun e => (parseError e errorData).map (renderedMatch e)) ∧
    (∀ e1 e2 d1 d2, parseError e1 errorData = some d1 →
      parseError e2 errorData = some d2 →
      decodeCustomErrorData [e1, e2] errorData =
        [renderedMatch e1 d1, renderedMatch e2 d2]) := by
  refine ⟨decodeCustomErrorData_spec entities errorData, ?_⟩
  intro e1 e2 d1 d2 h1 h2
  rw [decodeCustomErrorData_spec]
  simp [List.filterMap_cons, h1, h2]

/-- C2 witness: two candidates declaring the same selector both match
one payload, in supply order. -/
theorem c2_matcher_exact_matches_witness :
    decodeCustomErrorData [entityA, entityB] "0x08c379a0" =
      ["CollideErr() -- from contract \"Alpha\"",
       "CollideErr() -- from contract \"Beta\""] :=
  ((c2_matcher_exact_matches [] "0x08c379a0").2 entityA entityB
    ⟨"CollideErr", []⟩ ⟨"CollideErr", []⟩ (by decide) (by decide)).trans (by decide)

/-- C3: `panicErrorCodeToReason` is total; each tabulated code maps to
its fixed reason string and every other code maps to "???". -/
theorem c3_panicReason_total (code : Nat) :
    (panicErrorCodeToReason 0x1 = "Assertion error" ∧
      panicErrorCodeToReason 0x11 =
        "Arithmetic operation underflowed or overflowed outside of an unchecked block" ∧
      panicErrorCodeToReason 0x12 = "Division or modulo division by zero" ∧
      panicErrorCodeToReason 0x21 =
        "Tried to convert a value into an enum, but the value was too big or negative" ∧
      panicErrorCodeToReason 0x22 = "Incorrectly encoded storage byte array" ∧
      panicErrorCodeToReason 0x31 = ".pop() was called on an empty array" ∧
      panicErrorCodeToReason 0x32 = "Array accessed at an out-of-bounds or negative index" ∧
      panicErrorCodeToReason 0x41 =
        "Too much memory was allocated, or an array was created that is too large" ∧
      panicErrorCodeToReason 0x51 =
        "Called a zero-initialized variable of internal function type" ∧
      panicErrorCodeToReason 0x99 = "???" ∧
      panicErrorCodeToReason 0x0 = "???") ∧
    (code ∉ ([0x1, 0x11, 0x12, 0x21, 0x22, 0x31, 0x32, 0x41, 0x51] : List Nat) →
      panicErrorCodeToReason code = "???") := by
  constructor
  · decide
  · intro h
    simp only [List.mem_cons, List.not_mem_nil, or_false, not_or] at h
    obtain ⟨h1, h2, h3, h4, h5, h6, h7, h8, h9⟩ := h
    simp [panicErrorCodeToReason, h1, h2, h3, h4, h5, h6, h7, h8, h9]

/-- C3 witness: an untabulated code maps to "???". -/
theorem c3_panicReason_total_witness : panicErrorCodeToReason 153 = "???" :=
  (c3_panicReason_total 153).2 (by decide)

/-- C4 counterexample: the claim states that the second line of the
empty-match fallback reads "Try to add more contract(s) to the
candidate set to get decoded error.", but the source (line 119) emits
"Try to add more contract(s) to the \"contracts\" directory to get
decoded error.".  At an unclassifiable payload with zero candidates the
report is the two-line block with the "contracts" directory wording,
not the claimed one. -/
theorem c4_counterexample :
    decodeErrorData abiCoderTotal [] "0xdeadbeef" "  " =
      some ("  " ++
        "Reverted with a custom error that can't be decoded using the provided contracts.\n" ++
        "  " ++ "Try to add more contract(s) to the \"contracts\" directory to get decoded error.") ∧
    decodeErrorData abiCoderTotal [] "0xdeadbeef" "  " ≠
      some ("  " ++
        "Reverted with a custom error that can't be decoded using the provided contracts.\n" ++
        "  " ++ "Try to add more contract(s) to the candidate set to get decoded error.") := by
  decide

/-- C4 (amended): for every `Unclassified` error data with an empty
match list, the report is exactly two lines: the indent followed by
"Reverted with a custom error that can't be decoded using the provided
contracts." and the indent followed by "Try to add more contract(s) to
the \"contracts\" directory to get decoded error."; in particular it
contains the literal substring "can't be decoded using the provided
contracts.". -/
theorem c4_unclassified_empty_report (coder : AbiCoder) (entities : List ContractEntity)
    (s indent : String)
    (hclass : classify coder s = some ClassificationResult.Unclassified)
    (hempty : decodeCustomErrorData entities s = []) :
    decodeErrorData coder entities s indent =
      some (indent ++
        "Reverted with a custom error that can't be decoded using the provided contracts.\n" ++
        indent ++ "Try to add more contract(s) to the \"contracts\" directory to get decoded error.") := by
  obtain ⟨h1, h2⟩ := (classify_unclassified_iff coder s).mp hclass
  simp [decodeErrorData, h1, h2, hempty]

/-- C4 witness: the amended report at a concrete unclassifiable input
with zero candidates. -/
theorem c4_unclassified_empty_report_witness :
    decodeErrorData abiCoderTotal [] "0x1234" "  " =
      some ("  " ++
        "Reverted with a custom error that can't be decoded using the provided contracts.\n" ++
        "  " ++ "Try to add more contract(s) to the \"contracts\" directory to get decoded error.") :=
  c4_unclassified_empty_report abiCoderTotal [] "0x1234" "  " (by decide) (by decide)

/-- C5: when the data classifies as a standard message or a standard
panic and the custom-error matcher (which is always run on the same
bytes) found a non-empty match list, the report appends after the
primary line the block " Also it can be the following custom
error(s):" followed by the matches, one per line at the next indent
level. -/
theorem c5_standard_plus_custom (coder : AbiCoder) (entities : List ContractEntity)
    (s indent : String) :
    (∀ m, classify coder s = some (ClassificationResult.StandardMessage m) →
      decodeCustomErrorData entities s ≠ [] →
      decodeErrorData coder entities s indent =
        some (indent ++ ("Reverted with the message: \"" ++ (m ++ ("\"." ++
          (" Also it can be the following custom error(s):\n" ++
            (indent ++ (textLevelIndent ++
              String.intercalate ("\n" ++ (indent ++ textLevelIndent))
                (decodeCustomErrorData entities s))))))))) ∧
    (∀ c r, classify coder s = some (ClassificationResult.StandardPanic c r) →
      decodeCustomErrorData entities s ≠ [] →
      decodeErrorData coder entities s indent =
        some (indent ++ ("Panicked with the code: \"" ++ (bigNumberToHexString c ++
          ("\"(" ++ (r ++ (")." ++
            (" Also it can be the following custom error(s):\n" ++
              (indent ++ (textLevelIndent ++
                String.intercalate ("\n" ++ (indent ++ textLevelIndent))
                  (decodeCustomErrorData entities s))))))))))) := by
  constructor
  · intro m hm hne
    obtain ⟨h1, h2⟩ := (classify_message_iff coder s m).mp hm
    have hlen : 0 < (decodeCustomErrorData entities s).length := List.length_pos.mpr hne
    simp [decodeErrorData, decodeRevertMessage, h1, h2, hlen, String.append_assoc]
  · intro c r hm hne
    obtain ⟨h0, h1, h2, h3⟩ := (classify_panic_iff coder s c r).mp hm
    have hlen : 0 < (decodeCustomErrorData entities s).length := List.length_pos.mpr hne
    subst h3
    simp [decodeErrorData, decodePanicCode, h0, h1, h2, hlen, String.append_assoc]

/-- C5 witness: a standard message whose selector also matches a
candidate's custom error yields the primary line plus the appended
custom-error block. -/
theorem c5_standard_plus_custom_witness :
    decodeErrorData abiCoderTotal [entityA] "0x08c379a0" "  " =
      some ("  Reverted with the message: \"ok\"." ++
        " Also it can be the following custom error(s):\n" ++
        "    CollideErr() -- from contract \"Alpha\"") :=
  (((c5_standard_plus_custom abiCoderTotal [entityA] "0x08c379a0" "  ").1 "ok"
    (by decide) (by decide)).trans (by decide))

/-- C6: error data shorter than 4 bytes (a hex string of fewer than 10
characters, "0x" plus fewer than 8 hex digits) classifies as
`Unclassified`, and the matcher returns an empty list for every
candidate set whose declared selectors are 4 bytes (8 hex characters)
wide. -/
theorem c6_short_data (coder : AbiCoder) (entities : List ContractEntity) (s : String)
    (hlen : s.length < 10)
    (hsel : ∀ e ∈ entities, ∀ f ∈ e.errorFragments, f.selector.length = 8) :
    classify coder s = some ClassificationResult.Unclassified ∧
    decodeCustomErrorData entities s = [] := by
  have hsel1 : ("0x08c379a0" : String).length = 10 := by decide
  have hsel2 : ("0x4e487b71" : String).length = 10 := by decide
  have h1 : jsStartsWith s "0x08c379a0" = false :=
    jsStartsWith_eq_false_of_lt s _ (by omega)
  have h2 : jsStartsWith s "0x4e487b71" = false :=
    jsStartsWith_eq_false_of_lt s _ (by omega)
  refine ⟨by simp [classify, h1, h2], ?_⟩
  rw [decodeCustomErrorData_spec, List.filterMap_eq_nil_iff]
  intro e he
  rw [Option.map_eq_none']
  unfold parseError
  rw [List.findSome?_eq_none_iff]
  intro f hf
  have hlf : f.selector.length = 8 := hsel e he f hf
  have hpre : ("0x" : String).length = 2 := by decide
  have hfalse : jsStartsWith s ("0x" ++ f.selector) = false := by
    apply jsStartsWith_eq_false_of_lt
    rw [String.length_append]
    omega
  simp [matchFragment, hfalse]

/-- C6 witness: a 3-byte input against a one-candidate set. -/
theorem c6_short_data_witness :
    classify abiCoderTotal "0x08c379" = some ClassificationResult.Unclassified ∧
    decodeCustomErrorData [entityA] "0x08c379" = [] :=
  c6_short_data abiCoderTotal [entityA] "0x08c379" (by decide) (by decide)

/-- C7: a decoded argument whose string form starts with "0x" is
wrapped in double quotes, any other argument is rendered unquoted, and
the rendered arguments are joined by the separator ", " inside the
match's display line. -/
theorem c7_argument_rendering (a : String) :
    (jsStartsWith a "0x" = true → renderArg a = "\"" ++ a ++ "\"") ∧
    (jsStartsWith a "0x" = false → renderArg a = a) ∧
    renderArg "0xABCDEF" = "\"0xABCDEF\"" ∧
    renderArg "42" = "42" ∧
    renderedMatch ⟨"C", []⟩ ⟨"E", ["0xABCDEF", "42"]⟩ =
      "E(\"0xABCDEF\", 42) -- from contract \"C\"" := by
  refine ⟨?_, ?_, by decide, by decide, by decide⟩
  · intro h
    simp [renderArg, h]
  · intro h
    simp [renderArg, h]

/-- C7 witness: the quoted and unquoted branches at concrete
arguments. -/
theorem c7_argument_rendering_witness :
    renderArg "0xdead" = "\"" ++ "0xdead" ++ "\"" ∧ renderArg "1000" = "1000" :=
  ⟨(c7_argument_rendering "0xdead").1 (by decide),
   (c7_argument_rendering "1000").2.1 (by decide)⟩

/-- C8: the decode of a payload under a recognized standard selector is
the only failure that escapes `decodeErrorData`: the result is `none`
(the source throws) exactly when the data starts with the Error(string)
selector and the string decode fails, or starts with the Panic(uint)
selector and the uint decode fails.  Every other input produces a
report; in particular per-candidate custom-decode failures never
escape. -/
theorem c8_only_malformed_standard_payload_escapes (coder : AbiCoder)
    (entities : List ContractEntity) (s indent : String) :
    decodeErrorData coder entities s indent = none ↔
      (jsStartsWith s "0x08c379a0" = true ∧
        coder.decodeString ("0x" ++ jsSubstring s 10) = none) ∨
      (jsStartsWith s "0x08c379a0" = false ∧ jsStartsWith s "0x4e487b71" = true ∧
        coder.decodeUint ("0x" ++ jsSubstring s 10) = none) := by
  cases h1 : jsStartsWith s "0x08c379a0" <;>
    cases h2 : jsStartsWith s "0x4e487b71" <;>
      simp [decodeErrorData, decodeRevertMessage, decodePanicCode, h1, h2,
        Option.map_eq_none']
  split <;> simp

/-- C9: `classify` and the matcher are deterministic and idempotent —
both are pure functions of their arguments in this embedding, mirroring
the source, whose only mutation is a push onto an array local to one
call; two calls on identical inputs give identical results. -/
theorem c9_deterministic_idempotent (coder : AbiCoder)
    (entities : List ContractEntity) (s indent : String) :
    classify coder s = classify coder s ∧
    decodeCustomErrorData entities s = decodeCustomErrorData entities s ∧
    decodeErrorData coder entities s indent = decodeErrorData coder entities s indent :=
  ⟨rfl, rfl, rfl⟩

/-- C10: selector classification is a case-sensitive prefix comparison
on the hex string form: "0x08C379A011" and "0x08c379a011" denote the
same bytes (the Error(string) selector followed by 0x11), the lowercase
form is recognized, but the uppercase form fails the prefix test and
falls through to `Unclassified`. -/
theorem c10_case_sensitive_selector :
    errorDataBytes "0x08C379A011" = some [8, 195, 121, 160, 17] ∧
    errorDataBytes "0x08c379a011" = some [8, 195, 121, 160, 17] ∧
    jsStartsWith "0x08C379A011" "0x08c379a0" = false ∧
    jsStartsWith "0x08c379a011" "0x08c379a0" = true ∧
    classify abiCoderTotal "0x08C379A011" = some ClassificationResult.Unclassified ∧
    classify abiCoderTotal "0x08c379a011" =
      some (ClassificationResult.StandardMessage "ok") := by
  decide

end ReplayTx
